import Mathlib

/-!
Verification of the attestation issuing/validation system
(`app/sas_client`, `app/backend`, `programs/test-solana-program`).

Byte strings are modelled as `List Nat` (each entry one byte), public keys
(`Pubkey`) as `Nat`, and the fallible Rust paths as `Option` / `Except`.
External RPC reads are passed in as explicit functions, so every service
operation is a pure function of its inputs and of the supplied ledger view.
-/

/-- Bytes of an ASCII/UTF-8 string literal, as used for PDA seed labels. -/
def strBytes (s : String) : List Nat :=
  s.toList.map Char.toNat

/-- The 32 bytes of a public key (`Pubkey::as_ref`), little-endian model. -/
def pubkeyBytes (pk : Nat) : List Nat :=
  (List.range 32).map (fun i => pk / 256 ^ i % 256)

/-- Abstract model of `Pubkey::find_program_address` from the Solana SDK:
a pure, deterministic, hash-like derivation from the ordered seed byte
strings and the program (namespace) identifier.  The code treats it as an
opaque one-way function; we model it as a concrete executable fold so that
only its purity and its arguments matter. -/
def findProgramAddress (seeds : List (List Nat)) (programId : Nat) : Nat :=
  (seeds.foldl (fun a s => s.foldl (fun b c => b * 257 + c + 1) (a * 131 + 7))
    programId) % 2 ^ 256

/-- The attestation-service program identity
(`SOLANA_ATTESTATION_SERVICE_ID` from the SAS client crate), an arbitrary
fixed key in the model. -/
def SOLANA_ATTESTATION_SERVICE_ID : Nat := 1111

/-- `AttestationPayload { age: bool, country: bool }`, identical in
`app/sas_client/src/lib.rs` and `app/backend/src/sas_client.rs`. -/
structure AttestationPayload where
  age : Bool
  country : Bool
deriving DecidableEq

/-- Borsh serialization of one `bool`: a single byte, `1` for true and `0`
for false. -/
def serializeBool (b : Bool) : List Nat :=
  [if b then 1 else 0]

/-- Borsh deserialization of one `bool`: consumes one byte which must be
exactly `0` or `1`; any other byte (or an empty input) is an error. -/
def deserializeBool : List Nat → Option (Bool × List Nat)
  | 0 :: rest => some (false, rest)
  | 1 :: rest => some (true, rest)
  | _ => none

/-- `BorshSerialize` for `AttestationPayload`: the fields in declaration
order, `age` then `country`. -/
def AttestationPayload.serialize (p : AttestationPayload) : List Nat :=
  serializeBool p.age ++ serializeBool p.country

/-- `BorshDeserialize::deserialize` for `AttestationPayload`: the fields in
declaration order, returning the remaining bytes. -/
def AttestationPayload.deserialize (bs : List Nat) :
    Option (AttestationPayload × List Nat) :=
  match deserializeBool bs with
  | none => none
  | some (a, rest) =>
    match deserializeBool rest with
    | none => none
    | some (c, rest2) => some ({ age := a, country := c }, rest2)

/-- `BorshDeserialize::try_from_slice` for `AttestationPayload`:
deserializes and requires that the whole slice was consumed. -/
def AttestationPayload.try_from_slice (bs : List Nat) :
    Option AttestationPayload :=
  match AttestationPayload.deserialize bs with
  | some (p, []) => some p
  | _ => none

/-- Schema layout constant of `app/sas_client/src/lib.rs`:
`AttestationPayload::layout() = [10, 10]`. -/
def SasClient.AttestationPayload.layout : List Nat := [10, 10]

/-- Schema field names of `app/sas_client/src/lib.rs`:
`AttestationPayload::fields() = ["age", "country"]`. -/
def SasClient.AttestationPayload.fields : List String := ["age", "country"]

/-- Schema layout constant of `app/backend/src/sas_client.rs`:
`AttestationPayload::layout() = [1, 1]`. -/
def Backend.AttestationPayload.layout : List Nat := [1, 1]

/-- `CREDENTIAL_NAME` of `app/sas_client/src/lib.rs`. -/
def SasClient.CREDENTIAL_NAME : String := "Test Credential"

/-- `SCHEMA_NAME` of `app/sas_client/src/lib.rs`. -/
def SasClient.SCHEMA_NAME : String := "UserVerification"

/-- `SCHEMA_VERSION` of `app/sas_client/src/lib.rs`. -/
def SasClient.SCHEMA_VERSION : Nat := 1

/-- `SCHEMA_DESC` of `app/sas_client/src/lib.rs`. -/
def SasClient.SCHEMA_DESC : String := "age: bool, country: bool"

/-- `AttestationService::credential_pda` (`app/sas_client/src/lib.rs`):
seeds `[b"credential", issuer, CREDENTIAL_NAME]` under the SAS program id. -/
def SasClient.credential_pda (issuer : Nat) : Nat :=
  findProgramAddress
    [strBytes "credential", pubkeyBytes issuer,
      strBytes SasClient.CREDENTIAL_NAME]
    SOLANA_ATTESTATION_SERVICE_ID

/-- `AttestationService::schema_pda` (`app/sas_client/src/lib.rs`):
seeds `[b"schema", credential_pda, SCHEMA_NAME, [SCHEMA_VERSION]]`. -/
def SasClient.schema_pda (credentialPda : Nat) : Nat :=
  findProgramAddress
    [strBytes "schema", pubkeyBytes credentialPda,
      strBytes SasClient.SCHEMA_NAME, [SasClient.SCHEMA_VERSION]]
    SOLANA_ATTESTATION_SERVICE_ID

/-- `AttestationService::attestation_pda` (`app/sas_client/src/lib.rs`):
seeds `[b"attestation", credential_pda, schema_pda, user]`. -/
def SasClient.attestation_pda (credentialPda schemaPda user : Nat) : Nat :=
  findProgramAddress
    [strBytes "attestation", pubkeyBytes credentialPda,
      pubkeyBytes schemaPda, pubkeyBytes user]
    SOLANA_ATTESTATION_SERVICE_ID

/-- The SAS `Attestation` account record (external
`solana_attestation_service_client::accounts::Attestation`).
Modelled from the spec: "Attestation account = {credential ref, schema ref,
nonce = subject identity, expiry: signed 64-bit seconds, data: raw payload
bytes}". -/
structure Attestation where
  credential : Nat
  schema : Nat
  nonce : Nat
  expiry : Int
  data : List Nat
deriving DecidableEq

/-- Little-endian byte list to natural number. -/
def bytesToNat : List Nat → Nat
  | [] => 0
  | b :: rest => b % 256 + 256 * bytesToNat rest

/-- Little-endian 8-byte list to a signed 64-bit value. -/
def bytesToI64 (bs : List Nat) : Int :=
  let u := bytesToNat bs
  if u < 2 ^ 63 then (u : Int) else (u : Int) - 2 ^ 64

/-- `Attestation::from_bytes` of the external SAS client library.
Modelled from the spec: the fixed header is the credential reference
(32 bytes), schema reference (32 bytes), nonce (32 bytes) and expiry
(8 bytes, signed seconds), followed by the raw payload bytes; shorter
inputs fail to parse. -/
def Attestation.from_bytes (bs : List Nat) : Option Attestation :=
  if 104 ≤ bs.length then
    some
      { credential := bytesToNat (bs.take 32)
        schema := bytesToNat ((bs.drop 32).take 32)
        nonce := bytesToNat ((bs.drop 64).take 32)
        expiry := bytesToI64 ((bs.drop 96).take 8)
        data := bs.drop 104 }
  else
    none

/-- An account as seen by the on-chain program (`UncheckedAccount`):
its address, owning program, and raw data. -/
structure AccountInfo where
  key : Nat
  owner : Nat
  data : List Nat
deriving DecidableEq

/-- The accounts and clock handed to the `validate` instruction
(`Validate` accounts struct plus the `Clock` sysvar's `unix_timestamp`). -/
structure ValidateCtx where
  attestation : AccountInfo
  credential : AccountInfo
  schema : AccountInfo
  clockUnixTimestamp : Int
deriving DecidableEq

/-- `AttestError` of `programs/test-solana-program/src/lib.rs`. -/
inductive AttestError where
  | WrongOwner
  | InvalidAttestationPda
  | DecodeFailed
  | HeaderMismatch
  | Expired
  | SchemaMismatch
deriving DecidableEq

/-- The `ValidationResult` event emitted by a successful `validate` call. -/
structure ValidationResult where
  user : Nat
  valid : Bool
deriving DecidableEq

/-- The expected attestation address re-derived inside `validate_impl`
(step 2): `PDA(b"attestation", credential, schema, user)` under the SAS
program id. -/
def validatorExpectedAttestation (credentialKey schemaKey userWallet : Nat) : Nat :=
  findProgramAddress
    [strBytes "attestation", pubkeyBytes credentialKey,
      pubkeyBytes schemaKey, pubkeyBytes userWallet]
    SOLANA_ATTESTATION_SERVICE_ID

/-- `validate_impl` of `programs/test-solana-program/src/lib.rs`: the
ordered chain of checks — owner, PDA binding, header decode, header
cross-reference (credential, schema, nonce), expiry, payload length — and
on success the emitted `ValidationResult` with `valid = payload[0] != 0 &&
payload[1] != 0`. -/
def validate_impl (ctx : ValidateCtx) (user_wallet : Nat) :
    Except AttestError ValidationResult :=
  if ctx.attestation.owner = SOLANA_ATTESTATION_SERVICE_ID then
    if ctx.attestation.key =
        validatorExpectedAttestation ctx.credential.key ctx.schema.key user_wallet then
      match Attestation.from_bytes ctx.attestation.data with
      | none => .error .DecodeFailed
      | some att =>
        if att.credential = ctx.credential.key then
          if att.schema = ctx.schema.key then
            if att.nonce = user_wallet then
              if ctx.clockUnixTimestamp < att.expiry then
                if att.data.length = 2 then
                  .ok
                    { user := user_wallet
                      valid := (att.data.getD 0 0 != 0) && (att.data.getD 1 0 != 0) }
                else
                  .error .SchemaMismatch
              else
                .error .Expired
            else
              .error .HeaderMismatch
          else
            .error .HeaderMismatch
        else
          .error .HeaderMismatch
    else
      .error .InvalidAttestationPda
  else
    .error .WrongOwner

/-- Errors of the RPC client's `get_account`
(`solana_client::client_error::ClientError`): `forUser` models
`ClientErrorKind::RpcError(RpcError::ForUser _)`, the shape produced when
the account does not exist; `other` models every other kind (transport,
RPC internal, ...). -/
inductive ClientError where
  | forUser (msg : String)
  | other (code : Nat)
deriving DecidableEq

/-- A raw account returned by `get_account`. -/
structure RpcAccount where
  owner : Nat
  data : List Nat
deriving DecidableEq

/-- The failure cases of `fetch_attestation` (the two `anyhow!` errors). -/
inductive FetchError where
  | headerParse
  | payloadDecode
deriving DecidableEq

/-- `AttestationService::fetch_attestation` (`app/sas_client/src/lib.rs`):
derives the attestation PDA, reads the account through the supplied
`get_account` view (any read error short-circuits to `Ok(None)`), parses
the SAS header, then Borsh-decodes the payload. -/
def fetch_attestation (getAccount : Nat → Except ClientError RpcAccount)
    (credPda schemaPda user : Nat) :
    Except FetchError (Option AttestationPayload) :=
  let attestationPda := SasClient.attestation_pda credPda schemaPda user
  match getAccount attestationPda with
  | .error _ => .ok none
  | .ok acc =>
    match Attestation.from_bytes acc.data with
    | none => .error .headerParse
    | some attestation =>
      match AttestationPayload.try_from_slice attestation.data with
      | none => .error .payloadDecode
      | some payload => .ok (some payload)

/-- The HTTP response `{age, country}` of the verification endpoint. -/
structure VerificationResponse where
  age : Bool
  country : Bool
deriving DecidableEq

/-- `verification_handler` (`app/backend/src/verification.rs`, identical
control flow in `app/backend/src/main.rs`): the address parse result, the
attestation fetch, and the attestation creation are supplied as explicit
inputs.  On a parse failure the handler returns `{age: false, country:
false}` early; in every other branch — fetch error, fetch `None` followed
by a create (whose error is only logged), or fetch `Some` — it falls
through to `success_response`. -/
def verification_handler (parseResult : Option Nat)
    (fetchResult : Nat → Except FetchError (Option AttestationPayload))
    (createResult : Nat → Except String Nat) : VerificationResponse :=
  let success_response : VerificationResponse := { age := true, country := true }
  match parseResult with
  | none => { age := false, country := false }
  | some user_pubkey =>
    match fetchResult user_pubkey with
    | .ok none =>
      match createResult user_pubkey with
      | .error _ => success_response
      | .ok _ => success_response
    | .ok (some _) => success_response
    | .error _ => success_response

/-- `LAMPORTS_PER_SOL`. -/
def LAMPORTS_PER_SOL : Nat := 1000000000

/-- `MIN_SOL_BALANCE` of `app/sas_client/src/lib.rs`. -/
def MIN_SOL_BALANCE : Nat := 2

/-- On-ledger contents of the accounts `init` creates.  Modelled from the
spec: "Credential account = {authority identity, name}" (plus the
authorized signer set) and "Schema account = {credential ref, name,
version, description, layout, field_names}". -/
inductive AccountContent where
  | credential (authority : Nat) (name : String) (signers : List Nat)
  | schema (credentialRef : Nat) (name : String) (version : Nat)
      (description : String) (layout : List Nat) (fieldNames : List String)
deriving DecidableEq

/-- The ledger view used by `init`: the payer's balance and the account at
each address, if any. -/
structure LedgerState where
  payerBalance : Nat
  accounts : Nat → Option AccountContent

/-- The creation instructions `init` may submit (`CreateCredentialBuilder`
and `CreateSchemaBuilder` with the arguments the code passes). -/
inductive Op where
  | createCredential (credential : Nat) (authority : Nat) (name : String)
      (signers : List Nat)
  | createSchema (schema : Nat) (credentialRef : Nat) (name : String)
      (version : Nat) (description : String) (layout : List Nat)
      (fieldNames : List String)
deriving DecidableEq

/-- Whether an operation is a credential-creation submission. -/
def Op.isCredentialCreate : Op → Bool
  | .createCredential .. => true
  | _ => false

/-- Whether an operation is a schema-creation submission. -/
def Op.isSchemaCreate : Op → Bool
  | .createSchema .. => true
  | _ => false

/-- `AttestationService::account_exists` against the pure ledger view:
`get_account` succeeds exactly when an account is present (a missing
account surfaces as `RpcError::ForUser`, which the code maps to `false`). -/
def accountExists (st : LedgerState) (pk : Nat) : Bool :=
  (st.accounts pk).isSome

/-- `AttestationService::airdrop_up_to`: if the payer balance is below
`amountSol * LAMPORTS_PER_SOL`, an airdrop of the difference tops it up to
exactly that amount; otherwise nothing happens. -/
def airdropUpTo (st : LedgerState) (amountSol : Nat) : LedgerState :=
  let amountLamperts := amountSol * LAMPORTS_PER_SOL
  if amountLamperts ≤ st.payerBalance then st
  else { st with payerBalance := amountLamperts }

/-- Effect of a confirmed account creation on the ledger: the account now
exists at the target address with the created contents. -/
def writeAccount (st : LedgerState) (pk : Nat) (c : AccountContent) :
    LedgerState :=
  { st with accounts := fun x => if x = pk then some c else st.accounts x }

/-- The issuer/payer/signer key material of an `AttestationService`. -/
structure ServiceKeys where
  payer : Nat
  issuer : Nat
  signer : Nat

/-- `AttestationService::init` (`app/sas_client/src/lib.rs`, same gating in
`app/backend/src/sas_client.rs`): airdrop up to the minimum balance, then
create the credential account only if none exists at `cred_pda`, then
create the schema account only if none exists at `schema_pda`.  Returns
the resulting ledger state and the list of submitted creation
instructions. -/
def SasClient.init (keys : ServiceKeys) (st : LedgerState) :
    LedgerState × List Op :=
  let cred_pda := SasClient.credential_pda keys.issuer
  let schema_pda := SasClient.schema_pda cred_pda
  let st1 := airdropUpTo st MIN_SOL_BALANCE
  let st2 :=
    if accountExists st1 cred_pda then st1
    else
      writeAccount st1 cred_pda
        (.credential keys.issuer SasClient.CREDENTIAL_NAME [keys.signer])
  let ops1 : List Op :=
    if accountExists st1 cred_pda then []
    else
      [.createCredential cred_pda keys.issuer SasClient.CREDENTIAL_NAME
        [keys.signer]]
  let st3 :=
    if accountExists st2 schema_pda then st2
    else
      writeAccount st2 schema_pda
        (.schema cred_pda SasClient.SCHEMA_NAME SasClient.SCHEMA_VERSION
          SasClient.SCHEMA_DESC SasClient.AttestationPayload.layout
          SasClient.AttestationPayload.fields)
  let ops2 : List Op :=
    if accountExists st2 schema_pda then []
    else
      [.createSchema schema_pda cred_pda SasClient.SCHEMA_NAME
        SasClient.SCHEMA_VERSION SasClient.SCHEMA_DESC
        SasClient.AttestationPayload.layout SasClient.AttestationPayload.fields]
  (st3, ops1 ++ ops2)

/-- C1 (counterexample): with a validly parsed address, a failing
attestation fetch — and likewise a failing attestation creation — still
produce the success response `{age: true, country: true}`, not a
non-verified response: the errors are only logged. -/
theorem verification_handler_failure_counterexample :
    verification_handler (some 5) (fun _ => .error .headerParse)
        (fun _ => .error "send failed") = { age := true, country := true } ∧
      verification_handler (some 5) (fun _ => .ok none)
        (fun _ => .error "send failed") = { age := true, country := true } :=
  ⟨rfl, rfl⟩

/-- C1 (amended): whenever the address parses, `verification_handler`
returns the success response `{age: true, country: true}` regardless of
the outcome of the attestation fetch and of the attestation creation;
only a parse failure yields the non-verified response
`{age: false, country: false}`. -/
theorem verification_handler_always_success (pk : Nat)
    (fetchResult : Nat → Except FetchError (Option AttestationPayload))
    (createResult : Nat → Except String Nat) :
    verification_handler (some pk) fetchResult createResult =
        { age := true, country := true } ∧
      verification_handler none fetchResult createResult =
        { age := false, country := false } := by
  constructor
  · unfold verification_handler
    dsimp only
    cases hf : fetchResult pk with
    | error e => rfl
    | ok o =>
      cases o with
      | none =>
        cases hc : createResult pk with
        | error e => rfl
        | ok v => rfl
      | some p => rfl
  · rfl

/-- C2 (counterexample): the encoded payload is 2 bytes, but the schema
layout compiled into `app/sas_client/src/lib.rs` is `[10, 10]`, whose sum
is 20, so the encoded length is not `sum(layout())` and `sum(layout())`
is not 2. -/
theorem encode_layout_sum_counterexample :
    (AttestationPayload.serialize { age := true, country := true }).length = 2 ∧
      SasClient.AttestationPayload.layout.sum = 20 ∧
      (AttestationPayload.serialize { age := true, country := true }).length ≠
        SasClient.AttestationPayload.layout.sum := by
  decide

/-- C2 (amended): for every payload, the Borsh encoding is exactly 2
bytes, one per field; the backend schema's layout `[1, 1]` sums to 2,
matching the encoded length, but the `sas_client` crate's layout
`[10, 10]` sums to 20, so there the encoded length differs from
`sum(layout())`. -/
theorem encode_two_bytes (p : AttestationPayload) :
    (AttestationPayload.serialize p).length = 2 ∧
      Backend.AttestationPayload.layout.sum = 2 ∧
      SasClient.AttestationPayload.layout.sum = 20 := by
  obtain ⟨a, c⟩ := p
  cases a <;> cases c <;> decide

/-- C4: the attestation address computed by
`AttestationService::attestation_pda` and the expected address re-derived
by the validator's address-binding check coincide for all credential,
schema, and subject keys (same seeds, same SAS namespace id), and both
derivations are deterministic: identical inputs give identical
addresses. -/
theorem attestation_pda_matches_validator (c s u : Nat) :
    SasClient.attestation_pda c s u = validatorExpectedAttestation c s u ∧
      ∀ c2 s2 u2, c2 = c → s2 = s → u2 = u →
        SasClient.attestation_pda c2 s2 u2 = SasClient.attestation_pda c s u ∧
          validatorExpectedAttestation c2 s2 u2 =
            validatorExpectedAttestation c s u := by
  refine ⟨rfl, fun c2 s2 u2 hc hs hu => ?_⟩
  subst hc; subst hs; subst hu
  exact ⟨rfl, rfl⟩

/-- Witness for C4 at concrete keys. -/
theorem attestation_pda_matches_validator_witness :
    SasClient.attestation_pda 1 2 3 = validatorExpectedAttestation 1 2 3 ∧
      SasClient.attestation_pda 1 2 3 = SasClient.attestation_pda 1 2 3 :=
  ⟨(attestation_pda_matches_validator 1 2 3).1,
    ((attestation_pda_matches_validator 1 2 3).2 1 2 3 rfl rfl rfl).1⟩

/-- C5: whenever the attestation account's owner differs from the SAS
program identity, `validate_impl` rejects with `WrongOwner`, whatever the
other accounts, the data, the clock, and the subject are: the ownership
check comes first. -/
theorem validate_impl_wrong_owner (ctx : ValidateCtx) (user : Nat)
    (h : ctx.attestation.owner ≠ SOLANA_ATTESTATION_SERVICE_ID) :
    validate_impl ctx user = .error .WrongOwner := by
  unfold validate_impl
  rw [if_neg h]

/-- Concrete context whose attestation account is owned by the system
program (not the SAS program). -/
def ctxWrongOwner : ValidateCtx :=
  { attestation := { key := 0, owner := 0, data := [] }
    credential := { key := 0, owner := 0, data := [] }
    schema := { key := 0, owner := 0, data := [] }
    clockUnixTimestamp := 0 }

/-- Witness for C5: the wrong-owner context is rejected with
`WrongOwner`. -/
theorem validate_impl_wrong_owner_witness :
    ctxWrongOwner.attestation.owner ≠ SOLANA_ATTESTATION_SERVICE_ID ∧
      validate_impl ctxWrongOwner 0 = .error .WrongOwner :=
  ⟨by decide, validate_impl_wrong_owner ctxWrongOwner 0 (by decide)⟩

/-- C9: Borsh round-trip — decoding the encoding returns the original
payload, for every `{age, country}` combination. -/
theorem payload_roundtrip (p : AttestationPayload) :
    AttestationPayload.try_from_slice (AttestationPayload.serialize p) =
      some p := by
  obtain ⟨a, c⟩ := p
  cases a <;> cases c <;> rfl

/-- C10: every failure of the underlying `get_account` read — not only
the not-found case — makes `fetch_attestation` return `Ok(None)`,
indistinguishable from the subject having no attestation. -/
theorem fetch_attestation_read_error_none
    (getAccount : Nat → Except ClientError RpcAccount) (c s u : Nat)
    (e : ClientError)
    (h : getAccount (SasClient.attestation_pda c s u) = .error e) :
    fetch_attestation getAccount c s u = .ok none := by
  unfold fetch_attestation
  dsimp only
  rw [h]

/-- Witness for C10 at a transport-style (non-not-found) error. -/
theorem fetch_attestation_read_error_none_witness :
    fetch_attestation (fun _ => .error (.other 7)) 0 0 0 = .ok none :=
  fetch_attestation_read_error_none (fun _ => .error (.other 7)) 0 0 0
    (.other 7) rfl

/-- C7: `fetch_attestation` returns `Ok(None)` when the account read
fails because no account exists at the derived address (the
`RpcError::ForUser` shape); it returns an error when an account exists
but its fixed header cannot be parsed; and it returns `Ok(Some payload))`
when both the header and the payload decode. -/
theorem fetch_attestation_cases
    (getAccount : Nat → Except ClientError RpcAccount) (c s u : Nat) :
    (∀ m, getAccount (SasClient.attestation_pda c s u) = .error (.forUser m) →
        fetch_attestation getAccount c s u = .ok none) ∧
      (∀ acc, getAccount (SasClient.attestation_pda c s u) = .ok acc →
        Attestation.from_bytes acc.data = none →
        fetch_attestation getAccount c s u = .error .headerParse) ∧
      (∀ acc att p, getAccount (SasClient.attestation_pda c s u) = .ok acc →
        Attestation.from_bytes acc.data = some att →
        AttestationPayload.try_from_slice att.data = some p →
        fetch_attestation getAccount c s u = .ok (some p)) := by
  refine ⟨fun m hm => ?_, fun acc hacc hdec => ?_, fun acc att p hacc hdec hp => ?_⟩
  · unfold fetch_attestation
    dsimp only
    rw [hm]
  · unfold fetch_attestation
    dsimp only
    rw [hacc]
    dsimp only
    rw [hdec]
  · unfold fetch_attestation
    dsimp only
    rw [hacc]
    dsimp only
    rw [hdec]
    dsimp only
    rw [hp]

/-- A ledger view with no account anywhere (reads fail as not-found). -/
def getAccountMissing : Nat → Except ClientError RpcAccount :=
  fun _ => .error (.forUser "AccountNotFound")

/-- A ledger view whose accounts hold bytes too short to be a SAS
attestation header. -/
def getAccountGarbled : Nat → Except ClientError RpcAccount :=
  fun _ => .ok { owner := SOLANA_ATTESTATION_SERVICE_ID, data := [1, 2, 3] }

/-- Account bytes of a well-formed attestation: zero credential, schema
and nonce references, expiry 1, payload `[1, 1]`. -/
def goodAttestationBytes : List Nat :=
  List.replicate 96 0 ++ [1, 0, 0, 0, 0, 0, 0, 0] ++ [1, 1]

/-- A ledger view whose accounts all hold `goodAttestationBytes`. -/
def getAccountGood : Nat → Except ClientError RpcAccount :=
  fun _ => .ok { owner := SOLANA_ATTESTATION_SERVICE_ID, data := goodAttestationBytes }

/-- Witness for C7: the three outcomes at concrete ledger views. -/
theorem fetch_attestation_cases_witness :
    fetch_attestation getAccountMissing 0 0 0 = .ok none ∧
      fetch_attestation getAccountGarbled 0 0 0 = .error .headerParse ∧
      fetch_attestation getAccountGood 0 0 0 =
        .ok (some { age := true, country := true }) :=
  ⟨(fetch_attestation_cases getAccountMissing 0 0 0).1 "AccountNotFound" rfl,
    (fetch_attestation_cases getAccountGarbled 0 0 0).2.1
      { owner := SOLANA_ATTESTATION_SERVICE_ID, data := [1, 2, 3] } rfl (by decide),
    (fetch_attestation_cases getAccountGood 0 0 0).2.2
      { owner := SOLANA_ATTESTATION_SERVICE_ID, data := goodAttestationBytes }
      { credential := 0, schema := 0, nonce := 0, expiry := 1, data := [1, 1] }
      { age := true, country := true } rfl (by decide) (by decide)⟩

/-- C6: once the ownership, address-binding, header-decode and header
cross-reference checks pass, `validate_impl` rejects with `Expired`
exactly when the current ledger time is at or past the header's expiry
(`now < expiry` is required strictly). -/
theorem validate_impl_expired_iff (ctx : ValidateCtx) (user : Nat)
    (att : Attestation)
    (hown : ctx.attestation.owner = SOLANA_ATTESTATION_SERVICE_ID)
    (hpda : ctx.attestation.key =
      validatorExpectedAttestation ctx.credential.key ctx.schema.key user)
    (hdec : Attestation.from_bytes ctx.attestation.data = some att)
    (hcred : att.credential = ctx.credential.key)
    (hsch : att.schema = ctx.schema.key)
    (hnonce : att.nonce = user) :
    validate_impl ctx user = .error .Expired ↔
      att.expiry ≤ ctx.clockUnixTimestamp := by
  unfold validate_impl
  rw [if_pos hown, if_pos hpda, hdec]
  dsimp only
  rw [if_pos hcred, if_pos hsch, if_pos hnonce]
  by_cases hlt : ctx.clockUnixTimestamp < att.expiry
  · rw [if_pos hlt]
    constructor
    · intro h
      by_cases hlen : att.data.length = 2
      · rw [if_pos hlen] at h
        exact absurd h (by simp)
      · rw [if_neg hlen] at h
        exact absurd h (by simp)
    · intro h
      omega
  · rw [if_neg hlt]
    simp only [true_iff]
    omega

set_option maxRecDepth 100000

/-- Account bytes of an attestation with zero credential/schema/nonce
references, expiry 5, payload `[1, 1]`. -/
def expiresAtFiveBytes : List Nat :=
  List.replicate 96 0 ++ [5, 0, 0, 0, 0, 0, 0, 0] ++ [1, 1]

/-- A validate context whose attestation expires exactly at the current
ledger time (clock = expiry = 5) and passes every earlier check. -/
def ctxExpiresNow : ValidateCtx :=
  { attestation :=
      { key := validatorExpectedAttestation 0 0 0
        owner := SOLANA_ATTESTATION_SERVICE_ID
        data := expiresAtFiveBytes }
    credential := { key := 0, owner := 0, data := [] }
    schema := { key := 0, owner := 0, data := [] }
    clockUnixTimestamp := 5 }

/-- The parsed header of `expiresAtFiveBytes`. -/
def attExpiresAtFive : Attestation :=
  { credential := 0, schema := 0, nonce := 0, expiry := 5, data := [1, 1] }

/-- Witness for C6: a current time exactly equal to the expiry is
rejected with `Expired`. -/
theorem validate_impl_expired_iff_witness :
    validate_impl ctxExpiresNow 0 = .error .Expired :=
  (validate_impl_expired_iff ctxExpiresNow 0 attExpiresAtFive rfl rfl
    (by decide) rfl rfl rfl).mpr (by decide)

/-- C3: once the ownership, address-binding, header-decode, header
cross-reference and expiry checks pass, `validate_impl` rejects with
`SchemaMismatch` exactly when the payload is not 2 bytes, and on a 2-byte
payload completes without error, emitting `valid = (payload[0] != 0 &&
payload[1] != 0)`. -/
theorem validate_impl_payload_check (ctx : ValidateCtx) (user : Nat)
    (att : Attestation)
    (hown : ctx.attestation.owner = SOLANA_ATTESTATION_SERVICE_ID)
    (hpda : ctx.attestation.key =
      validatorExpectedAttestation ctx.credential.key ctx.schema.key user)
    (hdec : Attestation.from_bytes ctx.attestation.data = some att)
    (hcred : att.credential = ctx.credential.key)
    (hsch : att.schema = ctx.schema.key)
    (hnonce : att.nonce = user)
    (hexp : ctx.clockUnixTimestamp < att.expiry) :
    (att.data.length ≠ 2 →
        validate_impl ctx user = .error .SchemaMismatch) ∧
      (att.data.length = 2 →
        validate_impl ctx user =
          .ok { user := user
                valid := (att.data.getD 0 0 != 0) && (att.data.getD 1 0 != 0) }) := by
  unfold validate_impl
  rw [if_pos hown, if_pos hpda, hdec]
  dsimp only
  rw [if_pos hcred, if_pos hsch, if_pos hnonce, if_pos hexp]
  constructor
  · intro h
    rw [if_neg h]
  · intro h
    rw [if_pos h]

/-- Account bytes of an attestation with zero references, expiry 1 and
payload `[1, 0]`, i.e. `{age: true, country: false}`. -/
def claimFalseBytes : List Nat :=
  List.replicate 96 0 ++ [1, 0, 0, 0, 0, 0, 0, 0] ++ [1, 0]

/-- A validate context carrying the `{true, false}` attestation, passing
every check before the payload step. -/
def ctxClaimFalse : ValidateCtx :=
  { attestation :=
      { key := validatorExpectedAttestation 0 0 0
        owner := SOLANA_ATTESTATION_SERVICE_ID
        data := claimFalseBytes }
    credential := { key := 0, owner := 0, data := [] }
    schema := { key := 0, owner := 0, data := [] }
    clockUnixTimestamp := 0 }

/-- The parsed header of `claimFalseBytes`. -/
def attClaimFalse : Attestation :=
  { credential := 0, schema := 0, nonce := 0, expiry := 1, data := [1, 0] }

/-- Witness for C3: payload `{true, false}` completes without error and
emits a claim-false result. -/
theorem validate_impl_payload_check_witness :
    validate_impl ctxClaimFalse 0 = .ok { user := 0, valid := false } :=
  (validate_impl_payload_check ctxClaimFalse 0 attClaimFalse rfl rfl
    (by decide) rfl rfl rfl (by decide)).2 rfl

/-- `airdropUpTo` never changes the account map. -/
theorem airdropUpTo_accounts (st : LedgerState) (a : Nat) :
    (airdropUpTo st a).accounts = st.accounts := by
  unfold airdropUpTo
  dsimp only
  split <;> rfl

/-- After `airdropUpTo`, the payer balance is at least the requested
amount. -/
theorem airdropUpTo_balance (st : LedgerState) (a : Nat) :
    a * LAMPORTS_PER_SOL ≤ (airdropUpTo st a).payerBalance := by
  unfold airdropUpTo
  dsimp only
  split
  · assumption
  · exact Nat.le_refl _

/-- `airdropUpTo` is a no-op when the balance already suffices. -/
theorem airdropUpTo_of_ge (st : LedgerState) (a : Nat)
    (h : a * LAMPORTS_PER_SOL ≤ st.payerBalance) : airdropUpTo st a = st := by
  unfold airdropUpTo
  dsimp only
  rw [if_pos h]

/-- `writeAccount` never changes the payer balance. -/
theorem writeAccount_balance (st : LedgerState) (k : Nat) (v : AccountContent) :
    (writeAccount st k v).payerBalance = st.payerBalance :=
  rfl

/-- After writing an account, it exists at the written address. -/
theorem accountExists_write_self (st : LedgerState) (k : Nat)
    (v : AccountContent) : accountExists (writeAccount st k v) k = true := by
  simp [accountExists, writeAccount]

/-- Writing an account preserves the existence of every account. -/
theorem accountExists_write_mono (st : LedgerState) (k : Nat)
    (v : AccountContent) (x : Nat) (h : accountExists st x = true) :
    accountExists (writeAccount st k v) x = true := by
  simp only [accountExists, writeAccount] at *
  by_cases hxk : x = k
  · simp [hxk]
  · simpa [hxk] using h

/-- `airdropUpTo` preserves account existence pointwise. -/
theorem accountExists_airdrop (st : LedgerState) (a x : Nat) :
    accountExists (airdropUpTo st a) x = accountExists st x := by
  unfold accountExists
  rw [airdropUpTo_accounts]

/-- When the payer balance suffices and both the credential and schema
accounts already exist, `init` changes nothing and submits nothing. -/
theorem init_noop_of_exists (keys : ServiceKeys) (st : LedgerState)
    (hbal : MIN_SOL_BALANCE * LAMPORTS_PER_SOL ≤ st.payerBalance)
    (hc : accountExists st (SasClient.credential_pda keys.issuer) = true)
    (hs : accountExists st
      (SasClient.schema_pda (SasClient.credential_pda keys.issuer)) = true) :
    SasClient.init keys st = (st, []) := by
  unfold SasClient.init
  dsimp only
  rw [airdropUpTo_of_ge st MIN_SOL_BALANCE hbal]
  simp [hc, hs]

/-- After `init`, the payer balance suffices and both the credential and
schema accounts exist. -/
theorem init_post (keys : ServiceKeys) (st : LedgerState) :
    MIN_SOL_BALANCE * LAMPORTS_PER_SOL ≤ (SasClient.init keys st).1.payerBalance ∧
      accountExists (SasClient.init keys st).1
        (SasClient.credential_pda keys.issuer) = true ∧
      accountExists (SasClient.init keys st).1
        (SasClient.schema_pda (SasClient.credential_pda keys.issuer)) = true := by
  unfold SasClient.init
  dsimp only
  by_cases h1 : accountExists (airdropUpTo st MIN_SOL_BALANCE)
      (SasClient.credential_pda keys.issuer) = true
  · by_cases h2 : accountExists (airdropUpTo st MIN_SOL_BALANCE)
        (SasClient.schema_pda (SasClient.credential_pda keys.issuer)) = true
    · simp only [if_pos h1, if_pos h2]
      exact ⟨airdropUpTo_balance st MIN_SOL_BALANCE, h1, h2⟩
    · simp only [if_pos h1, if_neg h2]
      refine ⟨?_, ?_, ?_⟩
      · rw [writeAccount_balance]
        exact airdropUpTo_balance st MIN_SOL_BALANCE
      · exact accountExists_write_mono _ _ _ _ h1
      · exact accountExists_write_self _ _ _
  · by_cases h2 : accountExists
        (writeAccount (airdropUpTo st MIN_SOL_BALANCE)
          (SasClient.credential_pda keys.issuer)
          (.credential keys.issuer SasClient.CREDENTIAL_NAME [keys.signer]))
        (SasClient.schema_pda (SasClient.credential_pda keys.issuer)) = true
    · simp only [if_neg h1, if_pos h2]
      refine ⟨?_, ?_, h2⟩
      · rw [writeAccount_balance]
        exact airdropUpTo_balance st MIN_SOL_BALANCE
      · exact accountExists_write_self _ _ _
    · simp only [if_neg h1, if_neg h2]
      refine ⟨?_, ?_, ?_⟩
      · rw [writeAccount_balance, writeAccount_balance]
        exact airdropUpTo_balance st MIN_SOL_BALANCE
      · exact accountExists_write_mono _ _ _ _ (accountExists_write_self _ _ _)
      · exact accountExists_write_self _ _ _

/-- C8: `init` is idempotent with respect to the credential and schema
accounts: an existing credential account means no credential-creation
instruction is submitted, an existing schema account means no
schema-creation instruction is submitted, and a second `init` after a
successful first one changes nothing and submits nothing. -/
theorem sasClient_init_idempotent (keys : ServiceKeys) (st : LedgerState) :
    (accountExists st (SasClient.credential_pda keys.issuer) = true →
        ((SasClient.init keys st).2.filter Op.isCredentialCreate) = []) ∧
      (accountExists st
          (SasClient.schema_pda (SasClient.credential_pda keys.issuer)) = true →
        ((SasClient.init keys st).2.filter Op.isSchemaCreate) = []) ∧
      SasClient.init keys (SasClient.init keys st).1 =
        ((SasClient.init keys st).1, []) := by
  refine ⟨?_, ?_, ?_⟩
  · intro h1
    unfold SasClient.init
    dsimp only
    by_cases h2 : accountExists st
        (SasClient.schema_pda (SasClient.credential_pda keys.issuer)) = true
    · simp [accountExists_airdrop, h1, h2, Op.isCredentialCreate]
    · simp [accountExists_airdrop, h1, h2, Op.isCredentialCreate]
  · intro h2
    unfold SasClient.init
    dsimp only
    by_cases h1 : accountExists st
        (SasClient.credential_pda keys.issuer) = true
    · simp [accountExists_airdrop, h1, h2, Op.isSchemaCreate]
    · have h2w : accountExists
          (writeAccount (airdropUpTo st MIN_SOL_BALANCE)
            (SasClient.credential_pda keys.issuer)
            (.credential keys.issuer SasClient.CREDENTIAL_NAME [keys.signer]))
          (SasClient.schema_pda (SasClient.credential_pda keys.issuer)) = true := by
        refine accountExists_write_mono _ _ _ _ ?_
        rw [accountExists_airdrop]
        exact h2
      simp [accountExists_airdrop, h1, h2w, Op.isSchemaCreate,
        Op.isCredentialCreate]
  · obtain ⟨hb, hc, hs⟩ := init_post keys st
    exact init_noop_of_exists keys (SasClient.init keys st).1 hb hc hs

/-- A ledger on which every address already holds an account. -/
def stBothExist : LedgerState :=
  { payerBalance := 0
    accounts := fun _ => some (.credential 0 "Test Credential" []) }

/-- Witness for C8: on a ledger where the credential and schema accounts
exist, `init` submits neither creation instruction. -/
theorem sasClient_init_idempotent_witness :
    accountExists stBothExist (SasClient.credential_pda 3) = true ∧
      ((SasClient.init { payer := 1, issuer := 3, signer := 4 }
          stBothExist).2.filter Op.isCredentialCreate) = [] ∧
      ((SasClient.init { payer := 1, issuer := 3, signer := 4 }
          stBothExist).2.filter Op.isSchemaCreate) = [] :=
  ⟨rfl,
    (sasClient_init_idempotent { payer := 1, issuer := 3, signer := 4 }
      stBothExist).1 rfl,
    (sasClient_init_idempotent { payer := 1, issuer := 3, signer := 4 }
      stBothExist).2.1 rfl⟩
